import Mathlib

/-!
Shallow embedding of `tools/install-vcpkg.py`.

The script is a straight-line program:
1. `tools_dir = os.path.dirname(os.path.abspath(__file__))`
2. `vcpkg_dir = os.path.join(tools_dir, "vcpkg")`
3. if `not os.path.isdir(vcpkg_dir)`: print a message and
   `subprocess.check_call(["git", "clone", <url>, vcpkg_dir])`
4. `system_platform = platform.system()`; if it equals `"Windows"` pick
   `bootstrap-vcpkg.bat` inside `vcpkg_dir`, otherwise `bootstrap-vcpkg.sh`
5. print a message and `subprocess.check_call([bootstrap_script, "-disableMetrics"])`

External inputs (the filesystem, `platform.system()`, `os.getcwd()`,
`__file__`, and the exit statuses the two subprocesses would return) are
collected in an `Env` record.  Running the script produces the ordered list
of observable events (prints and subprocess invocations) together with the
process exit status.  `subprocess.check_call` raises `CalledProcessError` on
a non-zero child status; the script installs no handler, and CPython
terminates with status 1 on an uncaught exception, so the modelled exit
status is 1 whenever an invoked subprocess fails and 0 otherwise.

`os.path` is modelled as `posixpath` (the POSIX implementations of
`dirname`, `join`, `abspath`, `normpath`, `isabs`), translated function by
function from CPython's `posixpath.py`, character-level where Python works
on strings.
-/

namespace Vcpkg

/-- Whether the first character of `s` is `c` (Python `s.startswith(c)` for a
one-character prefix). -/
def startsWithChar (s : String) (c : Char) : Bool :=
  match s.data with
  | [] => false
  | c0 :: _ => c0 == c

/-- Whether the last character of `s` is `c` (Python `s.endswith(c)` for a
one-character suffix). -/
def endsWithChar (s : String) (c : Char) : Bool :=
  match s.data.getLast? with
  | none => false
  | some c0 => c0 == c

/-- `posixpath.isabs`: a path is absolute iff it starts with `/`. -/
def isAbs (p : String) : Bool := startsWithChar p '/'

/-- `posixpath.join(a, b)` for two arguments: if `b` is absolute it replaces
`a`; otherwise it is appended, inserting a `/` unless `a` is empty or already
ends with `/`. -/
def pathJoin (a b : String) : String :=
  if isAbs b then b
  else if a = "" || endsWithChar a '/' then a ++ b
  else a ++ "/" ++ b

/-- Number of leading slashes kept by `posixpath.normpath`: `2` for exactly
two leading slashes (POSIX reserves `//`), else `1` for an absolute path,
else `0`. -/
def initialSlashes (p : String) : Nat :=
  match p.data with
  | '/' :: '/' :: '/' :: _ => 1
  | '/' :: '/' :: _ => 2
  | '/' :: _ => 1
  | _ => 0

/-- Python `str.split('/')` at the character level: maximal runs between
slashes, keeping empty components. -/
def splitSlash : List Char → List (List Char)
  | [] => [[]]
  | c :: rest =>
    if c = '/' then [] :: splitSlash rest
    else
      match splitSlash rest with
      | [] => [[c]]
      | w :: ws => (c :: w) :: ws

/-- The component loop of `posixpath.normpath`.  `acc` holds the components
accepted so far, most recent first (Python's `new_comps` reversed): empty and
`.` components are dropped, `..` pops the previous component except at the
root of an absolute path or after an unresolvable `..`. -/
def normpathComps (slashes : Nat) : List String → List String → List String
  | [], acc => acc.reverse
  | comp :: rest, acc =>
    if comp = "" ∨ comp = "." then
      normpathComps slashes rest acc
    else if comp ≠ ".." ∨ (slashes = 0 ∧ acc = []) ∨ acc.head? = some ".." then
      normpathComps slashes rest (comp :: acc)
    else
      normpathComps slashes rest acc.tail

/-- Python `'/'.join(comps)`. -/
def joinWithSlash : List String → String
  | [] => ""
  | [s] => s
  | s :: rest => s ++ "/" ++ joinWithSlash rest

/-- `posixpath.normpath`: collapse repeated slashes and `.` / `..`
components; the empty path normalises to `.`. -/
def normpath (path : String) : String :=
  if path = "" then "."
  else
    let slashes := initialSlashes path
    let comps := normpathComps slashes ((splitSlash path.data).map String.mk) []
    let res := String.mk (List.replicate slashes '/') ++ joinWithSlash comps
    if res = "" then "." else res

/-- `posixpath.dirname` step 1: the prefix of the path up to and including
the final slash (Python `p[:p.rfind('/') + 1]`). -/
def takeThroughLastSlash : List Char → List Char
  | [] => []
  | c :: rest =>
    if rest.contains '/' then c :: takeThroughLastSlash rest
    else if c = '/' then [c] else []

/-- `posixpath.dirname`: everything before the last slash; trailing slashes
are stripped unless the head consists only of slashes. -/
def dirname (p : String) : String :=
  let head := takeThroughLastSlash p.data
  if head ≠ [] ∧ ¬ head.all (fun c => c == '/') then
    String.mk ((head.reverse.dropWhile (fun c => c == '/')).reverse)
  else String.mk head

/-- `posixpath.abspath`: prepend the current working directory when the path
is relative, then normalise. -/
def abspath (cwd p : String) : String :=
  if isAbs p then normpath p else normpath (pathJoin cwd p)

/-- Python `str.lower` restricted to ASCII case mapping, used only to state
the case-insensitive-variant property about platform names. -/
def lowerStr (s : String) : String := String.mk (s.data.map Char.toLower)

/-- The external world as the script observes it: working directory,
`__file__`, the filesystem predicates `os.path.isdir` / `os.path.exists`
(the script consults only the former), the `platform.system()` string, and
the exit statuses the two subprocesses would return if invoked. -/
structure Env where
  cwd : String
  file : String
  isDir : String → Bool
  pathExists : String → Bool
  system : String
  cloneExit : Nat
  bootstrapExit : Nat

/-- An observable step of the script: a line printed to stdout, or a
subprocess invocation with its full argument vector. -/
inductive Event where
  | print (s : String)
  | call (cmd : List String)
  deriving DecidableEq

/-- `tools_dir = os.path.dirname(os.path.abspath(__file__))`. -/
def tools_dir (env : Env) : String := dirname (abspath env.cwd env.file)

/-- `vcpkg_dir = os.path.join(tools_dir, "vcpkg")`. -/
def vcpkg_dir (env : Env) : String := pathJoin (tools_dir env) "vcpkg"

/-- The hardcoded clone URL. -/
def vcpkgUrl : String := "https://github.com/Microsoft/vcpkg.git"

/-- The platform branch: `bootstrap-vcpkg.bat` under `vcpkg_dir` when
`platform.system() == "Windows"`, else `bootstrap-vcpkg.sh`. -/
def bootstrap_script (env : Env) : String :=
  if env.system = "Windows" then pathJoin (vcpkg_dir env) "bootstrap-vcpkg.bat"
  else pathJoin (vcpkg_dir env) "bootstrap-vcpkg.sh"

/-- The tail of the script once the clone block is passed (lines 16-25):
select the bootstrap entry point, print, and `check_call` it with the single
flag `-disableMetrics`.  `tr` is the trace accumulated so far; the final
status is 0 on child success and 1 (uncaught `CalledProcessError`)
otherwise. -/
def runBootstrap (env : Env) (tr : List Event) : List Event × Nat :=
  (tr ++ [Event.print "Installing vcpkg...",
          Event.call [bootstrap_script env, "-disableMetrics"]],
   if env.bootstrapExit == 0 then 0 else 1)

/-- The whole script: skip the clone when `os.path.isdir(vcpkg_dir)`;
otherwise print and `check_call` the `git clone`, aborting with status 1
(uncaught `CalledProcessError`) when the clone child exits non-zero. -/
def run (env : Env) : List Event × Nat :=
  if env.isDir (vcpkg_dir env) then
    runBootstrap env []
  else
    let tr := [Event.print "Cloning vcpkg from GitHub...",
               Event.call ["git", "clone", vcpkgUrl, vcpkg_dir env]]
    if env.cloneExit == 0 then runBootstrap env tr
    else (tr, 1)

/-- Whether an event is a subprocess invocation. -/
def isCallEvent : Event → Bool
  | Event.call _ => true
  | Event.print _ => false

/-- Whether an event is an invocation of `git clone`. -/
def isCloneCall (e : Event) : Bool :=
  match e with
  | Event.call cmd => decide (cmd.take 2 = ["git", "clone"])
  | Event.print _ => false

/-- The run reaches the bootstrap step: the clone was skipped or
succeeded. -/
def reachesBootstrap (env : Env) : Bool :=
  env.isDir (vcpkg_dir env) || env.cloneExit == 0

/-- Scenario A of the spec: target directory absent, platform `Linux`,
both subprocesses succeed. -/
def envA : Env :=
  { cwd := "/home/user", file := "/repo/tools/install-vcpkg.py",
    isDir := fun _ => false, pathExists := fun _ => false,
    system := "Linux", cloneExit := 0, bootstrapExit := 0 }

/-- Scenario B of the spec: target directory present, platform `Windows`,
bootstrap succeeds. -/
def envB : Env :=
  { cwd := "/home/user", file := "/repo/tools/install-vcpkg.py",
    isDir := fun p => p == "/repo/tools/vcpkg",
    pathExists := fun p => p == "/repo/tools/vcpkg",
    system := "Windows", cloneExit := 0, bootstrapExit := 0 }

/-- A run in which the target directory is absent and the `git clone`
child exits with status 2. -/
def envCloneFail : Env :=
  { cwd := "/home/user", file := "/repo/tools/install-vcpkg.py",
    isDir := fun _ => false, pathExists := fun _ => false,
    system := "Linux", cloneExit := 2, bootstrapExit := 0 }

/-- A run in which the path `<script_dir>/vcpkg` exists on the filesystem
but is not a directory (for instance a regular file). -/
def envNonDir : Env :=
  { cwd := "/home/user", file := "/repo/tools/install-vcpkg.py",
    isDir := fun _ => false, pathExists := fun p => p == "/repo/tools/vcpkg",
    system := "Linux", cloneExit := 0, bootstrapExit := 0 }

/-- Scenario A with a different working directory, all else equal. -/
def envA2 : Env := { envA with cwd := "/somewhere/else" }

/-- Scenario A with the platform string `WINDOWS`, a case variant of
`Windows`. -/
def envCaseVariant : Env := { envA with system := "WINDOWS" }

theorem isCallEvent_print (s : String) : isCallEvent (Event.print s) = false := rfl

theorem isCallEvent_call (l : List String) : isCallEvent (Event.call l) = true := rfl

theorem isCloneCall_print (s : String) : isCloneCall (Event.print s) = false := rfl

theorem isCloneCall_clone (rest : List String) :
    isCloneCall (Event.call ("git" :: "clone" :: rest)) = true := rfl

theorem isCloneCall_bootstrap (s : String) :
    isCloneCall (Event.call [s, "-disableMetrics"]) = false := by
  show decide ([s, "-disableMetrics"].take 2 = ["git", "clone"]) = false
  apply decide_eq_false
  intro h
  exact absurd (List.cons.inj h).2 (by decide)

theorem run_of_isDir (env : Env) (h : env.isDir (vcpkg_dir env) = true) :
    run env = ([Event.print "Installing vcpkg...",
                Event.call [bootstrap_script env, "-disableMetrics"]],
               if env.bootstrapExit == 0 then 0 else 1) := by
  simp [run, h, runBootstrap]

theorem run_of_clone_ok (env : Env) (h : env.isDir (vcpkg_dir env) = false)
    (hc : env.cloneExit = 0) :
    run env = ([Event.print "Cloning vcpkg from GitHub...",
                Event.call ["git", "clone", vcpkgUrl, vcpkg_dir env],
                Event.print "Installing vcpkg...",
                Event.call [bootstrap_script env, "-disableMetrics"]],
               if env.bootstrapExit == 0 then 0 else 1) := by
  simp [run, h, hc, runBootstrap]

theorem run_of_clone_fail (env : Env) (h : env.isDir (vcpkg_dir env) = false)
    (hc : env.cloneExit ≠ 0) :
    run env = ([Event.print "Cloning vcpkg from GitHub...",
                Event.call ["git", "clone", vcpkgUrl, vcpkg_dir env]], 1) := by
  have hb : (env.cloneExit == 0) = false := by simpa using hc
  simp [run, h, hb]

theorem cloneFilter_of_not_dir (env : Env) (h : env.isDir (vcpkg_dir env) = false) :
    (run env).1.filter isCloneCall =
      [Event.call ["git", "clone", vcpkgUrl, vcpkg_dir env]] := by
  by_cases hc : env.cloneExit = 0
  · rw [run_of_clone_ok env h hc]
    simp [isCloneCall_print, isCloneCall_bootstrap, isCloneCall_clone]
  · rw [run_of_clone_fail env h hc]
    simp [isCloneCall_print, isCloneCall_clone]

theorem bootstrap_call_mem (env : Env) (h : reachesBootstrap env = true) :
    Event.call [bootstrap_script env, "-disableMetrics"] ∈ (run env).1 := by
  by_cases hd : env.isDir (vcpkg_dir env) = true
  · rw [run_of_isDir env hd]; simp
  · have hd2 : env.isDir (vcpkg_dir env) = false := by simpa using hd
    have hc : env.cloneExit = 0 := by
      simpa [reachesBootstrap, hd2] using h
    rw [run_of_clone_ok env hd2 hc]; simp

/-- Claim C1, amended: the run exits with status 0 exactly when every
invoked subprocess succeeded, and every failing run exits with status 1 —
`subprocess.check_call` raises `CalledProcessError`, the script installs no
handler, and CPython exits with status 1 on an uncaught exception, so the
child's own non-zero status is not propagated. -/
theorem exit_status_zero_or_one (env : Env) :
    ((run env).2 = 0 ↔ reachesBootstrap env = true ∧ env.bootstrapExit = 0) ∧
    ((run env).2 = 0 ∨ (run env).2 = 1) := by
  by_cases hd : env.isDir (vcpkg_dir env) = true
  · rw [run_of_isDir env hd]
    by_cases hb : env.bootstrapExit = 0 <;> simp [reachesBootstrap, hd, hb]
  · have hd2 : env.isDir (vcpkg_dir env) = false := by simpa using hd
    by_cases hc : env.cloneExit = 0
    · rw [run_of_clone_ok env hd2 hc]
      by_cases hb : env.bootstrapExit = 0 <;> simp [reachesBootstrap, hd2, hc, hb]
    · rw [run_of_clone_fail env hd2 hc]
      simp [reachesBootstrap, hd2, hc]

/-- Claim C1, counterexample: with the target directory absent and the clone
child exiting with status 2, the program terminates with exit status 1, not
with the subprocess's status 2 — the failed subprocess's exit code is not
propagated to the caller. -/
theorem exit_status_not_propagated :
    envCloneFail.isDir (vcpkg_dir envCloneFail) = false ∧
    envCloneFail.cloneExit = 2 ∧
    run envCloneFail =
      ([Event.print "Cloning vcpkg from GitHub...",
        Event.call ["git", "clone", vcpkgUrl, vcpkg_dir envCloneFail]], 1) ∧
    (run envCloneFail).2 ≠ envCloneFail.cloneExit := by decide

/-- Claim C2: when the target directory is absent and the clone child exits
non-zero, the trace ends right after the clone invocation — the clone is the
only subprocess call (so the bootstrap subprocess is never invoked) and the
run terminates with a failing status. -/
theorem clone_failure_fail_fast (env : Env)
    (hd : env.isDir (vcpkg_dir env) = false) (hc : env.cloneExit ≠ 0) :
    (run env).1 = [Event.print "Cloning vcpkg from GitHub...",
                   Event.call ["git", "clone", vcpkgUrl, vcpkg_dir env]] ∧
    (run env).1.filter isCallEvent =
      [Event.call ["git", "clone", vcpkgUrl, vcpkg_dir env]] ∧
    (run env).2 ≠ 0 := by
  rw [run_of_clone_fail env hd hc]
  simp [isCallEvent_print, isCallEvent_call]

theorem clone_failure_fail_fast_witness :
    (run envCloneFail).1 =
      [Event.print "Cloning vcpkg from GitHub...",
       Event.call ["git", "clone", vcpkgUrl, vcpkg_dir envCloneFail]] ∧
    (run envCloneFail).1.filter isCallEvent =
      [Event.call ["git", "clone", vcpkgUrl, vcpkg_dir envCloneFail]] ∧
    (run envCloneFail).2 ≠ 0 :=
  clone_failure_fail_fast envCloneFail (by decide) (by decide)

/-- Claim C3: when `<script_dir>/vcpkg` is already a directory, the run
performs no clone invocation at all. -/
theorem no_clone_when_dir_present (env : Env)
    (hd : env.isDir (vcpkg_dir env) = true) :
    (run env).1.filter isCloneCall = [] := by
  rw [run_of_isDir env hd]
  simp [isCloneCall_print, isCloneCall_bootstrap]

theorem no_clone_when_dir_present_witness :
    (run envB).1.filter isCloneCall = [] :=
  no_clone_when_dir_present envB (by decide)

/-- Claim C4: when the target directory is absent, exactly one clone
invocation occurs, with the fixed URL
`https://github.com/Microsoft/vcpkg.git` as source and the computed target
directory as destination. -/
theorem one_clone_when_dir_absent (env : Env)
    (hd : env.isDir (vcpkg_dir env) = false) :
    (run env).1.filter isCloneCall =
      [Event.call ["git", "clone", vcpkgUrl, vcpkg_dir env]] ∧
    vcpkgUrl = "https://github.com/Microsoft/vcpkg.git" :=
  ⟨cloneFilter_of_not_dir env hd, rfl⟩

theorem one_clone_when_dir_absent_witness :
    (run envA).1.filter isCloneCall =
      [Event.call ["git", "clone", vcpkgUrl, vcpkg_dir envA]] ∧
    vcpkgUrl = "https://github.com/Microsoft/vcpkg.git" :=
  one_clone_when_dir_absent envA (by decide)

/-- Claim C5: the platform branch — the string `Windows` selects the batch
entry point `<vcpkg_dir>/bootstrap-vcpkg.bat`, and any other platform string
selects the shell-script entry point `<vcpkg_dir>/bootstrap-vcpkg.sh`; there
is no third branch, and the run's bootstrap invocation calls the selected
path. -/
theorem platform_dispatch (env : Env) (h : reachesBootstrap env = true) :
    (env.system = "Windows" →
      bootstrap_script env = pathJoin (vcpkg_dir env) "bootstrap-vcpkg.bat" ∧
      Event.call [pathJoin (vcpkg_dir env) "bootstrap-vcpkg.bat", "-disableMetrics"]
        ∈ (run env).1) ∧
    (env.system ≠ "Windows" →
      bootstrap_script env = pathJoin (vcpkg_dir env) "bootstrap-vcpkg.sh" ∧
      Event.call [pathJoin (vcpkg_dir env) "bootstrap-vcpkg.sh", "-disableMetrics"]
        ∈ (run env).1) := by
  have hm := bootstrap_call_mem env h
  constructor
  · intro hs
    have hb : bootstrap_script env = pathJoin (vcpkg_dir env) "bootstrap-vcpkg.bat" := by
      simp [bootstrap_script, hs]
    exact ⟨hb, hb ▸ hm⟩
  · intro hs
    have hb : bootstrap_script env = pathJoin (vcpkg_dir env) "bootstrap-vcpkg.sh" := by
      simp [bootstrap_script, hs]
    exact ⟨hb, hb ▸ hm⟩

theorem platform_dispatch_witness :
    (bootstrap_script envB = pathJoin (vcpkg_dir envB) "bootstrap-vcpkg.bat" ∧
     Event.call [pathJoin (vcpkg_dir envB) "bootstrap-vcpkg.bat", "-disableMetrics"]
       ∈ (run envB).1) ∧
    (bootstrap_script envA = pathJoin (vcpkg_dir envA) "bootstrap-vcpkg.sh" ∧
     Event.call [pathJoin (vcpkg_dir envA) "bootstrap-vcpkg.sh", "-disableMetrics"]
       ∈ (run envA).1) :=
  ⟨(platform_dispatch envB (by decide)).1 (by decide),
   (platform_dispatch envA (by decide)).2 (by decide)⟩

/-- Claim C6: every run that reaches the bootstrap step performs exactly one
non-clone subprocess call, whose argument vector is the selected bootstrap
script followed by the single fixed flag `-disableMetrics` — regardless of
platform and of whether a clone occurred. -/
theorem bootstrap_single_flag (env : Env) (h : reachesBootstrap env = true) :
    (run env).1.filter (fun e => isCallEvent e && ! isCloneCall e) =
      [Event.call [bootstrap_script env, "-disableMetrics"]] := by
  by_cases hd : env.isDir (vcpkg_dir env) = true
  · rw [run_of_isDir env hd]
    simp [isCallEvent_print, isCallEvent_call, isCloneCall_bootstrap]
  · have hd2 : env.isDir (vcpkg_dir env) = false := by simpa using hd
    have hc : env.cloneExit = 0 := by
      simpa [reachesBootstrap, hd2] using h
    rw [run_of_clone_ok env hd2 hc]
    simp [isCallEvent_print, isCallEvent_call, isCloneCall_bootstrap, isCloneCall_clone]

theorem bootstrap_single_flag_witness :
    (run envA).1.filter (fun e => isCallEvent e && ! isCloneCall e) =
      [Event.call [bootstrap_script envA, "-disableMetrics"]] :=
  bootstrap_single_flag envA (by decide)

/-- Claim C7: end-to-end — with the target directory absent and platform
`Linux`, the run clones from the fixed URL into `<dir>/vcpkg` and then
invokes `<dir>/vcpkg/bootstrap-vcpkg.sh -disableMetrics`; with the target
directory present and platform `Windows`, the run performs no clone and
invokes `<dir>/vcpkg/bootstrap-vcpkg.bat -disableMetrics`. -/
theorem end_to_end_scenarios :
    run envA =
      ([Event.print "Cloning vcpkg from GitHub...",
        Event.call ["git", "clone", "https://github.com/Microsoft/vcpkg.git",
          "/repo/tools/vcpkg"],
        Event.print "Installing vcpkg...",
        Event.call ["/repo/tools/vcpkg/bootstrap-vcpkg.sh", "-disableMetrics"]], 0) ∧
    run envB =
      ([Event.print "Installing vcpkg...",
        Event.call ["/repo/tools/vcpkg/bootstrap-vcpkg.bat", "-disableMetrics"]], 0) := by
  decide

/-- Claim C8: when `__file__` is an absolute path (CPython 3.9+ guarantees
this), the computed script directory and target directory are identical
across runs that differ only in the current working directory. -/
theorem paths_cwd_independent (e1 e2 : Env)
    (hfile : e1.file = e2.file) (habs : isAbs e1.file = true) :
    tools_dir e1 = tools_dir e2 ∧ vcpkg_dir e1 = vcpkg_dir e2 := by
  have habs2 : isAbs e2.file = true := hfile ▸ habs
  constructor
  · simp [tools_dir, abspath, habs, habs2, hfile]
  · simp [vcpkg_dir, tools_dir, abspath, habs, habs2, hfile]

theorem paths_cwd_independent_witness :
    tools_dir envA = tools_dir envA2 ∧ vcpkg_dir envA = vcpkg_dir envA2 :=
  paths_cwd_independent envA envA2 rfl (by decide)

/-- Claim C9: the guard tests `os.path.isdir` specifically, not bare
existence — when `<script_dir>/vcpkg` exists but is not a directory, the
clone is still invoked, with that path as destination. -/
theorem nondir_target_still_cloned (env : Env)
    (hex : env.pathExists (vcpkg_dir env) = true)
    (hd : env.isDir (vcpkg_dir env) = false) :
    (run env).1.filter isCloneCall =
      [Event.call ["git", "clone", vcpkgUrl, vcpkg_dir env]] :=
  cloneFilter_of_not_dir env hd

theorem nondir_target_still_cloned_witness :
    (run envNonDir).1.filter isCloneCall =
      [Event.call ["git", "clone", vcpkgUrl, vcpkg_dir envNonDir]] :=
  nondir_target_still_cloned envNonDir (by decide) (by decide)

/-- Claim C10: the platform dispatch is a case-sensitive exact comparison —
any platform string that lowercases to `windows` but is not exactly
`Windows` selects the shell-script entry point, not the batch one. -/
theorem dispatch_case_sensitive (env : Env)
    (hlow : lowerStr env.system = "windows") (hne : env.system ≠ "Windows") :
    bootstrap_script env = pathJoin (vcpkg_dir env) "bootstrap-vcpkg.sh" := by
  simp [bootstrap_script, hne]

theorem dispatch_case_sensitive_witness :
    bootstrap_script envCaseVariant =
      pathJoin (vcpkg_dir envCaseVariant) "bootstrap-vcpkg.sh" :=
  dispatch_case_sensitive envCaseVariant (by decide) (by decide)

end Vcpkg
